import Mathlib

/-!
Verification of the `scripts/bokeh-phy.py` ingestion pipeline.

The script is a thin orchestration layer around four external collaborators
(baltic's Newick parser, pandas' CSV reader, plotly's palette data, and
bokeh's output functions).  The embedding below translates each function of
the script into a pure Lean function; every collaborator call is modelled by
an explicit oracle argument describing that call's outcome (e.g. the result
of `pd.read_csv` for a given separator), so that the script's own control
flow — the only logic the repository owns — is captured exactly.

Python exceptions are modelled by `Except` with an explicit exception kind
carrying the exception's message (`str(e)`); `ValueError`, `RuntimeError`,
`FileNotFoundError` and `TypeError` are the kinds the script can raise.
-/

set_option autoImplicit false

namespace BokehPhy

/-- Kinds of Python exception the script raises or propagates, each carrying
the message that `str(e)` would render. -/
inductive PyExc where
  | fileNotFound (msg : String)
  | valueError (msg : String)
  | runtimeError (msg : String)
  | typeError (msg : String)
deriving DecidableEq

/-- Model of `str(e)` for an exception: its message. -/
def PyExc.message : PyExc → String
  | .fileNotFound m => m
  | .valueError m => m
  | .runtimeError m => m
  | .typeError m => m

/-- A parsed metadata table as produced by `pd.read_csv`: the column names
(`metadata.columns`) and the rows.  The script only ever reads `columns`
and `len(metadata)`. -/
structure PTable where
  cols : List String
  rows : List (List String)
deriving DecidableEq

/-- The tree object built by `bt.loadNewick`; the script only reads its
external (tip) nodes, via `tree.getExternal()`. -/
structure BTree where
  tips : List String
deriving DecidableEq

/-- Python `repr` of a list of plain strings, as interpolated by an f-string:
`['a', 'b']`. -/
def pyRepr (xs : List String) : String :=
  "[" ++ String.intercalate ", " (xs.map (fun s => "\x27" ++ s ++ "\x27")) ++ "]"

/-- Substring test on character lists (used to state what a message does or
does not contain). -/
def infixOf : List Char → List Char → Bool
  | sub, [] => sub.isEmpty
  | sub, c :: rest => sub.isPrefixOf (c :: rest) || infixOf sub rest

/-- Predicate `strContains s sub` is true iff `sub` occurs contiguously in `s`. -/
def strContains (s sub : String) : Bool :=
  infixOf sub.data s.data

/-- The ordered candidate separators of the sniffing loop
(`for sep in ['\t', ',', ' ']`, lines 205-211). -/
def sniffSeps : List String := ["\t", ",", " "]

/-- The sniffing loop of `load_data` (lines 205-213).  `parse sep` is the
oracle for `pd.read_csv(metadata_file, sep=sep)`: `none` when that call
raises (swallowed by the bare `except: continue`), `some t` when it returns
table `t`.  A parse that succeeds with at most one column does not `break`;
the loop moves on, and the `for`/`else` clause fires (returning `none` here)
whenever no candidate produced a multi-column table. -/
def trySeps (parse : String → Option PTable) : List String → Option PTable
  | [] => none
  | sep :: rest =>
    match parse sep with
    | some t => if 1 < t.cols.length then some t else trySeps parse rest
    | none => trySeps parse rest

/-- Whether the candidate separator `sep` would be accepted by the sniffing
loop: its parse succeeds and yields more than one column. -/
def accepts (parse : String → Option PTable) (sep : String) : Bool :=
  match parse sep with
  | some t => decide (1 < t.cols.length)
  | none => false

/-- The metadata-loading block of `load_data` (lines 202-216): the sniffing
loop, whose `for`/`else` raise
`ValueError("Could not parse metadata file with any common separator")` is
caught by the enclosing `except` and re-raised as
`ValueError(f"Error loading metadata: {e}")`. -/
def loadMetadata (parse : String → Option PTable) : Except PyExc PTable :=
  match trySeps parse sniffSeps with
  | some t => .ok t
  | none => .error (.valueError
      "Error loading metadata: Could not parse metadata file with any common separator")

theorem trySeps_eq_find (parse : String → Option PTable) :
    ∀ seps : List String, trySeps parse seps = (seps.find? (accepts parse)).bind parse := by
  intro seps
  induction seps with
  | nil => rfl
  | cons sep rest ih =>
    rcases hp : parse sep with _ | t
    · have ha : accepts parse sep = false := by rw [accepts, hp]
      simp [trySeps, hp, List.find?, ha, ih]
    · by_cases hl : 1 < t.cols.length
      · have ha : accepts parse sep = true := by rw [accepts, hp]; simpa
        simp [trySeps, hp, hl, List.find?, ha]
      · have ha : accepts parse sep = false := by rw [accepts, hp]; simp; omega
        simp [trySeps, hp, hl, List.find?, ha, ih]

theorem loadMetadata_ok {parse : String → Option PTable} {t : PTable}
    (h : trySeps parse sniffSeps = some t) : loadMetadata parse = .ok t := by
  rw [loadMetadata, h]

/-- The warning printed by `load_data` when hover columns are missing
(line 229): `Warning: Hover columns not found in metadata: [...]`. -/
def hoverWarning (missing : List String) : String :=
  "Warning: Hover columns not found in metadata: " ++ pyRepr missing

/-- The message of the `ValueError` raised when the color column is absent
(line 224): it ends with the Python `repr` of `list(metadata.columns)`. -/
def colorColumnMsg (color_column : String) (cols : List String) : String :=
  ("Color column \x27" ++ color_column ++
    "\x27 not found in metadata. Available columns: ") ++ pyRepr cols

/-- The triple returned by `load_data` on success, together with the warning
lines it printed along the way. -/
structure LoadResult where
  tree : BTree
  metadata : PTable
  hover_columns : List String
  warnings : List String
deriving DecidableEq

/-- Embedding of `load_data(tree_file, metadata_file, color_column, hover_columns)`
(lines 194-232).  `treeRes` is the oracle for `bt.loadNewick(tree_file)`
(`.error e` when it raises an exception rendering as `e`), and `parse` the
per-separator oracle for `pd.read_csv(metadata_file, sep=...)`.  The two
path arguments appear only in informational `print` calls, never in any
raised error. -/
def load_data (tree_file metadata_file : String) (treeRes : Except String BTree)
    (parse : String → Option PTable) (color_column : String)
    (hover_columns : List String) : Except PyExc LoadResult :=
  match treeRes with
  | .error e => .error (.valueError ("Error loading tree: " ++ e))
  | .ok tree =>
    match loadMetadata parse with
    | .error e => .error e
    | .ok metadata =>
      if metadata.cols.contains color_column then
        let missing := hover_columns.filter (fun col => !(metadata.cols.contains col))
        if missing.isEmpty then
          .ok ⟨tree, metadata, hover_columns, []⟩
        else
          .ok ⟨tree, metadata,
               hover_columns.filter (fun col => metadata.cols.contains col),
               [hoverWarning missing]⟩
      else
        .error (.valueError (colorColumnMsg color_column metadata.cols))

/-- Embedding of `validate_inputs(tree_file, metadata_file)` (lines 176-191).
`treeExists`/`metaExists` are the oracles for `os.path.exists`; `treeRead`
is the oracle for opening and reading the tree file (`.ok content` or
`.error e` when `open`/`read` raise); `metaRead` is the corresponding oracle
for the metadata file, which the function receives but never consults.
The inner `ValueError("Tree file is empty: ...")` raised on blank content is
itself caught by the surrounding `except` and re-wrapped into
`ValueError(f"Cannot read tree file {tree_file}: {e}")`. -/
def validate_inputs (tree_file metadata_file : String) (treeExists metaExists : Bool)
    (treeRead metaRead : Except String String) : Except PyExc Unit :=
  if !treeExists then
    .error (.fileNotFound ("Tree file not found: " ++ tree_file))
  else if !metaExists then
    .error (.fileNotFound ("Metadata file not found: " ++ metadata_file))
  else
    match treeRead with
    | .error e => .error (.valueError ("Cannot read tree file " ++ tree_file ++ ": " ++ e))
    | .ok content =>
      if content.trim = "" then
        .error (.valueError ("Cannot read tree file " ++ tree_file ++
          ": Tree file is empty: " ++ tree_file))
      else
        .ok ()

/-- Embedding of `get_default_colors()` (lines 143-161), parameterised by the external
palette constant `px.colors.qualitative.Vivid` (a qualitative palette of 11
colors, so every index used here is in range).  A Python `dict` literal with
distinct string keys is modelled by its insertion-ordered association list. -/
def get_default_colors (TAXON_PALETTE : List String) : List (String × String) :=
  [("gambiae", TAXON_PALETTE.getD 1 ""),
   ("coluzzii", TAXON_PALETTE.getD 0 ""),
   ("arabiensis", TAXON_PALETTE.getD 2 ""),
   ("merus", TAXON_PALETTE.getD 3 ""),
   ("melas", TAXON_PALETTE.getD 4 ""),
   ("quadriannulatus", TAXON_PALETTE.getD 5 ""),
   ("fontenillei", TAXON_PALETTE.getD 6 ""),
   ("gcx1", TAXON_PALETTE.getD 7 ""),
   ("gcx2", TAXON_PALETTE.getD 8 ""),
   ("gcx3", TAXON_PALETTE.getD 9 ""),
   ("gcx4", TAXON_PALETTE.getD 10 ""),
   ("bissau", TAXON_PALETTE.getD 7 ""),
   ("pwani", TAXON_PALETTE.getD 9 ""),
   ("unassigned", "black")]

/-- Embedding of `load_custom_colors(color_file)` (lines 164-173).  `fileResult` is the
oracle for `open(color_file)` followed by `json.load`: `.ok m` when the file
decodes to the mapping `m`, `.error e` when any step raises.  On failure the
function prints a warning and returns `get_default_colors()`. -/
def load_custom_colors (palette : List String)
    (fileResult : Except String (List (String × String))) : List (String × String) :=
  match fileResult with
  | .ok m => m
  | .error _ => get_default_colors palette

/-- The color-map selection of `main` (lines 300-304): the custom path is
taken exactly when the `--custom-colors` flag was given. -/
def resolveColorMap (palette : List String) (custom_colors : Option String)
    (fileResult : Except String (List (String × String))) : List (String × String) :=
  match custom_colors with
  | some _ => load_custom_colors palette fileResult
  | none => get_default_colors palette

/-- The opaque plot object returned by `bt_bokeh.plotTree`. -/
inductive Plot where
  | mk
deriving DecidableEq

/-- Embedding of `create_plot(tree, metadata, args, color_map)` (lines 235-259):
delegates to `bt_bokeh.plotTree` (oracle `plotRes`) and wraps any exception
as `RuntimeError(f"Error creating plot: {e}")`. -/
def create_plot (plotRes : Except String Plot) : Except PyExc Plot :=
  match plotRes with
  | .ok p => .ok p
  | .error e => .error (.runtimeError ("Error creating plot: " ++ e))

/-- A value a Python local variable can hold in `save_plot`: the destination
path string, or a function object brought in by the local import. -/
inductive PyVal where
  | str (s : String)
  | func (name : String)
deriving DecidableEq

/-- The filesystem as `save_plot` observes it: the set of existing
directories and of existing files, as `/`-segmented paths. -/
structure FS where
  dirs : List (List String)
  files : List (List String)
deriving DecidableEq

/-- Split a path string into its `/`-separated segments. -/
def splitPath (s : String) : List String :=
  (s.splitOn "/").filter (fun seg => seg != "")

/-- All non-empty prefixes of a segment path: the chain of directories
`mkdir(parents=True)` creates. -/
def prefixesOf : List String → List (List String)
  | [] => []
  | seg :: rest => [seg] :: (prefixesOf rest).map (fun p => seg :: p)

/-- Model of `Path(...).parent.mkdir(parents=True, exist_ok=True)`: every prefix of
the parent directory comes to exist; already-existing ones are unaffected. -/
def mkdirParents (fs : FS) (dir : List String) : FS :=
  { fs with dirs := (prefixesOf dir).filter (fun d => !(fs.dirs.contains d)) ++ fs.dirs }

/-- The message of the `TypeError` that `pathlib.Path` raises when handed a
function object instead of a path string. -/
def pathTypeMsg : String :=
  "argument should be a str or an os.PathLike object, not <class \x27function\x27>"

/-- Model of `Path(v)`: accepts a string, raises `TypeError` on a function object. -/
def pyPath : PyVal → Except PyExc (List String)
  | .str s => .ok (splitPath s)
  | .func _ => .error (.typeError pathTypeMsg)

/-- Embedding of `save_plot(plot, output_file, show_plot)` (lines 262-281).  The body
begins with `from bokeh.plotting import output_file, save, show`, an
assignment to the *local* name `output_file` that rebinds it away from the
destination-path parameter to bokeh's `output_file` function before any
other statement runs; the subsequent `Path(output_file)` therefore receives
that function object.  The continuation after `Path` succeeds (create parent
directories, then either show or save) is embedded as written, guarded by
`pyPath`'s result. -/
def save_plot (fs : FS) (output_file : String) (show_plot : Bool) : Except PyExc FS :=
  let output_file : PyVal := .func "bokeh.plotting.output_file"
  match pyPath output_file with
  | .error e => .error e
  | .ok output_path =>
    let fs2 := mkdirParents fs output_path.dropLast
    if show_plot then
      .ok fs2
    else
      .ok { fs2 with files := output_path :: fs2.files }

/-- The command-line arguments `main` consumes (the style/geometry flags are
passed opaquely to the plotting collaborator and play no role in control
flow). -/
structure Args where
  tree : String
  metadata : String
  output : String
  color_column : String
  hover_columns : List String
  custom_colors : Option String
  show_plot : Bool

/-- The outcomes of every external-collaborator call one invocation can
make, plus the starting filesystem. -/
structure World where
  treeExists : Bool
  metaExists : Bool
  treeRead : Except String String
  metaRead : Except String String
  treeParse : Except String BTree
  csvParse : String → Option PTable
  customJson : Except String (List (String × String))
  palette : List String
  plotResult : Except String Plot
  fs : FS

/-- The body of `main`'s `try` block (lines 288-310): the stages in order,
stopping at the first exception. -/
def runBody (w : World) (a : Args) : Except PyExc Unit := do
  validate_inputs a.tree a.metadata w.treeExists w.metaExists w.treeRead w.metaRead
  let r ← load_data a.tree a.metadata w.treeParse w.csvParse a.color_column a.hover_columns
  let _hover := r.hover_columns
  let _color_map := resolveColorMap w.palette a.custom_colors w.customJson
  let _p ← create_plot w.plotResult
  let _fs ← save_plot w.fs a.output a.show_plot
  pure ()

/-- Embedding of the exception handling in `main` (lines 284-317): result is the process exit
code together with the single line the handler prints (`none` on success).
`interrupted` models a `KeyboardInterrupt` delivered during the body. -/
def mainRun (interrupted : Bool) (w : World) (a : Args) : Nat × Option String :=
  if interrupted then
    (1, some "\n❌ Interrupted by user")
  else
    match runBody w a with
    | .ok _ => (0, none)
    | .error e => (1, some ("❌ Error: " ++ e.message))

/-! ## Theorems -/

/-- Claim C10: `get_default_colors` is a pure constant mapping of exactly 14
entries — the 13 taxon labels drawn from the palette at the fixed indices
0 through 10 plus `"unassigned" ↦ "black"` defined by the resolver itself —
and it is not injective: `"bissau"` shares palette index 7 with `"gcx1"`,
and `"pwani"` shares palette index 9 with `"gcx3"`. -/
theorem default_colors_shape (p : List String) :
    (get_default_colors p).length = 14
  ∧ (get_default_colors p).map Prod.fst =
      ["gambiae", "coluzzii", "arabiensis", "merus", "melas", "quadriannulatus",
       "fontenillei", "gcx1", "gcx2", "gcx3", "gcx4", "bissau", "pwani", "unassigned"]
  ∧ (get_default_colors p).lookup "gambiae" = some (p.getD 1 "")
  ∧ (get_default_colors p).lookup "coluzzii" = some (p.getD 0 "")
  ∧ (get_default_colors p).lookup "arabiensis" = some (p.getD 2 "")
  ∧ (get_default_colors p).lookup "merus" = some (p.getD 3 "")
  ∧ (get_default_colors p).lookup "melas" = some (p.getD 4 "")
  ∧ (get_default_colors p).lookup "quadriannulatus" = some (p.getD 5 "")
  ∧ (get_default_colors p).lookup "fontenillei" = some (p.getD 6 "")
  ∧ (get_default_colors p).lookup "gcx1" = some (p.getD 7 "")
  ∧ (get_default_colors p).lookup "gcx2" = some (p.getD 8 "")
  ∧ (get_default_colors p).lookup "gcx3" = some (p.getD 9 "")
  ∧ (get_default_colors p).lookup "gcx4" = some (p.getD 10 "")
  ∧ (get_default_colors p).lookup "bissau" = some (p.getD 7 "")
  ∧ (get_default_colors p).lookup "pwani" = some (p.getD 9 "")
  ∧ (get_default_colors p).lookup "unassigned" = some "black"
  ∧ (get_default_colors p).lookup "bissau" = (get_default_colors p).lookup "gcx1"
  ∧ (get_default_colors p).lookup "pwani" = (get_default_colors p).lookup "gcx3"
  ∧ (∃ k₁ k₂ : String, k₁ ≠ k₂
      ∧ (get_default_colors p).lookup k₁ = (get_default_colors p).lookup k₂
      ∧ (get_default_colors p).lookup k₁ ≠ none) := by
  refine ⟨rfl, rfl, rfl, rfl, rfl, rfl, rfl, rfl, rfl, rfl, rfl, rfl, rfl, rfl, rfl,
    rfl, rfl, rfl, ⟨"bissau", "gcx1", by decide, rfl, by simp [get_default_colors]⟩⟩

/-- Claim C5: the custom-color resolver is all-or-nothing — a failing load
yields exactly the built-in default mapping, a successful load yields
exactly the decoded contents, and the mapping `main` activates is always
exactly one of the two, never a merge. -/
theorem custom_colors_all_or_nothing (palette : List String) (cc : Option String)
    (fileResult : Except String (List (String × String))) :
    (∀ e, fileResult = .error e →
        load_custom_colors palette fileResult = get_default_colors palette)
  ∧ (∀ m, fileResult = .ok m → load_custom_colors palette fileResult = m)
  ∧ (resolveColorMap palette cc fileResult = get_default_colors palette
      ∨ ∃ m, fileResult = .ok m ∧ resolveColorMap palette cc fileResult = m) := by
  refine ⟨fun e he => by rw [he]; rfl, fun m hm => by rw [hm]; rfl, ?_⟩
  rcases cc with _ | f
  · exact Or.inl rfl
  · rcases hf : fileResult with e | m
    · exact Or.inl (by simp [resolveColorMap, load_custom_colors])
    · exact Or.inr ⟨m, rfl, by simp [resolveColorMap, load_custom_colors]⟩

/-- Witness for C5: a concrete failing load (invalid JSON) resolves to
exactly the default mapping. -/
theorem custom_colors_all_or_nothing_witness :
    load_custom_colors ["c0"] (.error "Expecting value: line 1 column 1 (char 0)")
      = get_default_colors ["c0"] :=
  (custom_colors_all_or_nothing ["c0"] (some "colors.json")
      (.error "Expecting value: line 1 column 1 (char 0)")).1 _ rfl

/-- C6 as amended: a tree-parser failure with cause `e` is re-raised as
`ValueError("Error loading tree: " ++ e)`; only the cause is attached — the
message is the same whatever the tree file path is. -/
theorem tree_error_wrap (tree_file metadata_file : String) (cause : String)
    (parse : String → Option PTable) (color_column : String) (hover : List String) :
    load_data tree_file metadata_file (.error cause) parse color_column hover
      = .error (.valueError ("Error loading tree: " ++ cause)) :=
  rfl

/-- Counterexample to C6 as stated: for the concrete path
`trees/sample.nwk` and parser cause `bad newick`, the re-raised error's
message does not contain the tree file path. -/
theorem tree_error_no_path :
    load_data "trees/sample.nwk" "meta.tsv" (.error "bad newick")
        (fun _ => none) "taxon" []
      = .error (.valueError "Error loading tree: bad newick")
  ∧ strContains "Error loading tree: bad newick" "trees/sample.nwk" = false := by
  exact ⟨rfl, by decide⟩

/-- Claim C1: `save_plot` never reaches the directory-creation or save
steps: the local `from bokeh.plotting import output_file, save, show`
rebinds `output_file` from the destination path to bokeh's function, so
`Path(output_file)` raises `TypeError` on every call, whatever the
filesystem, destination path and show flag. -/
theorem save_plot_always_raises (fs : FS) (out : String) (sp : Bool) :
    save_plot fs out sp = .error (.typeError pathTypeMsg) :=
  rfl

theorem loadMetadata_ok_inv {parse : String → Option PTable} {t : PTable}
    (h : loadMetadata parse = .ok t) : trySeps parse sniffSeps = some t := by
  unfold loadMetadata at h
  rcases hts : trySeps parse sniffSeps with _ | u
  · rw [hts] at h; cases h
  · rw [hts] at h; cases h; rfl

/-- C2 as amended: the candidate separators are tried in the fixed order
tab, comma, single space; the first one whose parse yields more than one
column is accepted and its table returned; if none qualifies, the raised
`ValueError`'s message is
`Error loading metadata: Could not parse metadata file with any common separator`. -/
theorem metadata_sniffing (parse : String → Option PTable) :
    (∀ sep, sniffSeps.find? (accepts parse) = some sep →
        ∃ t, parse sep = some t ∧ 1 < t.cols.length ∧ loadMetadata parse = .ok t)
  ∧ (sniffSeps.find? (accepts parse) = none →
      loadMetadata parse = .error (.valueError
        "Error loading metadata: Could not parse metadata file with any common separator")) := by
  constructor
  · intro sep hfind
    have hacc : accepts parse sep = true := List.find?_some hfind
    rcases hp : parse sep with _ | t
    · rw [accepts, hp] at hacc; cases hacc
    · rw [accepts, hp] at hacc
      have hl : 1 < t.cols.length := by simpa using hacc
      refine ⟨t, rfl, hl, loadMetadata_ok ?_⟩
      rw [trySeps_eq_find, hfind]
      simpa using hp
  · intro hnone
    rw [loadMetadata, trySeps_eq_find, hnone]
    rfl

/-- A metadata file none of whose candidate parses succeeds. -/
def noParse : String → Option PTable := fun _ => none

/-- Counterexample to C2 as stated: for a metadata file no candidate can
parse, the raised message is the code's
`Error loading metadata: Could not parse metadata file with any common separator`,
which is not the claim's quoted string (nor does it even contain it). -/
theorem metadata_sniffing_message_cx :
    loadMetadata noParse = .error (.valueError
      "Error loading metadata: Could not parse metadata file with any common separator")
  ∧ "Error loading metadata: Could not parse metadata file with any common separator"
      ≠ "could not parse metadata with any common separator"
  ∧ strContains
      "Error loading metadata: Could not parse metadata file with any common separator"
      "could not parse metadata with any common separator" = false :=
  ⟨rfl, by decide, by decide⟩

/-- A metadata file whose comma parse (and only that one) yields two
columns. -/
def commaOnlyParse : String → Option PTable :=
  fun sep => if sep = "," then some ⟨["sample", "country"], [["A", "KE"]]⟩ else none

/-- Witness for C2 (amended): on a comma-separated file the sniffer accepts
the comma candidate and returns its two-column table. -/
theorem metadata_sniffing_witness :
    ∃ t, commaOnlyParse "," = some t ∧ 1 < t.cols.length
      ∧ loadMetadata commaOnlyParse = .ok t :=
  (metadata_sniffing commaOnlyParse).1 "," rfl

/-- A metadata file whose tab parse (and only that one) yields the
two-column table `taxon, country`. -/
def tabParse : String → Option PTable :=
  fun sep => if sep = "\t" then some ⟨["taxon", "country"], [["A", "KE"]]⟩ else none

/-- Claim C3: when the metadata parses to a table whose columns do not
include the requested color column, `load_data` raises a `ValueError`
(fatal — the whole call errors, whatever the hover list) whose message ends
with the Python rendering of the full list of available columns. -/
theorem color_column_check (tree_file metadata_file : String) (t : BTree)
    (parse : String → Option PTable) (color_column : String) (hover : List String)
    (tbl : PTable) (hparse : trySeps parse sniffSeps = some tbl)
    (hc : tbl.cols.contains color_column = false) :
    load_data tree_file metadata_file (.ok t) parse color_column hover
      = .error (.valueError (colorColumnMsg color_column tbl.cols))
  ∧ ∃ pre, colorColumnMsg color_column tbl.cols = pre ++ pyRepr tbl.cols := by
  constructor
  · unfold load_data
    dsimp only
    rw [loadMetadata_ok hparse]
    dsimp only
    rw [if_neg (by rw [hc]; simp)]
  · exact ⟨_, rfl⟩

/-- Witness for C3: requesting color column `species` against a
`taxon`/`country` table fails with the message listing both columns. -/
theorem color_column_check_witness :
    load_data "t.nwk" "m.tsv" (.ok ⟨["A"]⟩) tabParse "species" ["taxon"]
      = .error (.valueError (colorColumnMsg "species" ["taxon", "country"]))
  ∧ ∃ pre, colorColumnMsg "species" ["taxon", "country"]
      = pre ++ pyRepr ["taxon", "country"] :=
  color_column_check "t.nwk" "m.tsv" ⟨["A"]⟩ tabParse "species" ["taxon"]
    ⟨["taxon", "country"], [["A", "KE"]]⟩ rfl rfl

theorem filter_keep_of_no_missing {α : Type} (p : α → Bool) (l : List α)
    (h : l.filter (fun a => !(p a)) = []) : l.filter p = l := by
  rw [List.filter_eq_self]
  intro a ha
  have hmem := List.filter_eq_nil_iff.mp h a ha
  simpa using hmem

/-- Claim C4: whenever the metadata parses and the color column is present,
`load_data` succeeds for every requested hover list; the reconciled hover
list is exactly the request filtered to the metadata's columns (a sublist,
so the original order is preserved), and missing columns produce exactly
one warning naming them — never an error. -/
theorem hover_reconcile (tree_file metadata_file : String) (t : BTree)
    (parse : String → Option PTable) (color_column : String) (tbl : PTable)
    (hparse : trySeps parse sniffSeps = some tbl)
    (hc : tbl.cols.contains color_column = true) (hover : List String) :
    ∃ r : LoadResult,
      load_data tree_file metadata_file (.ok t) parse color_column hover = .ok r
      ∧ r.metadata = tbl
      ∧ r.hover_columns = hover.filter (fun col => tbl.cols.contains col)
      ∧ List.Sublist r.hover_columns hover
      ∧ r.warnings = (if (hover.filter (fun col => !(tbl.cols.contains col))).isEmpty
          then [] else [hoverWarning (hover.filter (fun col => !(tbl.cols.contains col)))]) := by
  unfold load_data
  dsimp only
  rw [loadMetadata_ok hparse]
  dsimp only
  by_cases hm : (hover.filter (fun col => !(tbl.cols.contains col))).isEmpty = true
  · have hall : hover.filter (fun col => tbl.cols.contains col) = hover :=
      filter_keep_of_no_missing _ _ (by simpa [List.isEmpty_iff] using hm)
    refine ⟨⟨t, tbl, hover, []⟩, ?_, rfl, hall.symm, List.Sublist.refl hover, ?_⟩
    · rw [if_pos hc, if_pos hm]
    · rw [if_pos hm]
  · refine ⟨⟨t, tbl, hover.filter (fun col => tbl.cols.contains col),
      [hoverWarning (hover.filter (fun col => !(tbl.cols.contains col)))]⟩,
      ?_, rfl, rfl, List.filter_sublist hover, ?_⟩
    · rw [if_pos hc, if_neg hm]
    · rw [if_neg hm]

/-- Witness for C4: requesting hover columns `taxon, alt` against a
`taxon`/`country` table succeeds, keeping `[taxon]` and warning about
`[alt]`. -/
theorem hover_reconcile_witness :
    ∃ r : LoadResult,
      load_data "t.nwk" "m.tsv" (.ok ⟨["A"]⟩) tabParse "taxon" ["taxon", "alt"] = .ok r
      ∧ r.metadata = ⟨["taxon", "country"], [["A", "KE"]]⟩
      ∧ r.hover_columns = ["taxon", "alt"].filter
          (fun col => (⟨["taxon", "country"], [["A", "KE"]]⟩ : PTable).cols.contains col)
      ∧ List.Sublist r.hover_columns ["taxon", "alt"]
      ∧ r.warnings = (if (["taxon", "alt"].filter
            (fun col => !((⟨["taxon", "country"], [["A", "KE"]]⟩ : PTable).cols.contains col))).isEmpty
          then []
          else [hoverWarning (["taxon", "alt"].filter
            (fun col => !((⟨["taxon", "country"], [["A", "KE"]]⟩ : PTable).cols.contains col)))]) :=
  hover_reconcile "t.nwk" "m.tsv" ⟨["A"]⟩ tabParse "taxon"
    ⟨["taxon", "country"], [["A", "KE"]]⟩ rfl rfl ["taxon", "alt"]

/-- Claim C7: `validate_inputs` raises `FileNotFoundError` exactly when one
of the two paths does not exist; given both exist, it raises `ValueError`
exactly when the tree file cannot be opened/read or its content trims to
empty; it succeeds exactly otherwise; and its outcome never depends on the
metadata file's content. -/
theorem validate_inputs_iff (tree_file metadata_file : String)
    (treeExists metaExists : Bool) (treeRead metaRead : Except String String) :
    ((∃ m, validate_inputs tree_file metadata_file treeExists metaExists treeRead metaRead
        = .error (.fileNotFound m)) ↔ (treeExists = false ∨ metaExists = false))
  ∧ ((∃ m, validate_inputs tree_file metadata_file treeExists metaExists treeRead metaRead
        = .error (.valueError m)) ↔
      (treeExists = true ∧ metaExists = true
        ∧ ((∃ e, treeRead = .error e) ∨ (∃ c, treeRead = .ok c ∧ c.trim = ""))))
  ∧ ((validate_inputs tree_file metadata_file treeExists metaExists treeRead metaRead
        = .ok ()) ↔
      (treeExists = true ∧ metaExists = true ∧ ∃ c, treeRead = .ok c ∧ c.trim ≠ ""))
  ∧ (∀ metaRead₂,
      validate_inputs tree_file metadata_file treeExists metaExists treeRead metaRead
        = validate_inputs tree_file metadata_file treeExists metaExists treeRead metaRead₂) := by
  rcases treeExists with _ | _
  · simp [validate_inputs]
  · rcases metaExists with _ | _
    · simp [validate_inputs]
    · rcases treeRead with e | c
      · simp [validate_inputs]
      · by_cases hct : c.trim = "" <;> simp [validate_inputs, hct]

/-- Witness for C7: with an existing metadata path but a missing tree path,
validation fails with a `FileNotFoundError`. -/
theorem validate_inputs_iff_witness :
    ∃ m, validate_inputs "t.nwk" "m.tsv" false true (.ok "(A:0.1);") (.ok "s")
      = .error (.fileNotFound m) :=
  (validate_inputs_iff "t.nwk" "m.tsv" false true (.ok "(A:0.1);") (.ok "s")).1.mpr
    (Or.inl rfl)

/-- Claim C8: the exit code is 0 exactly when the whole body runs without an
exception; a `KeyboardInterrupt` exits 1 with the interrupt line; and every
exception raised by any stage is caught by the single top-level handler and
rendered as the one line `❌ Error: <message>` with exit code 1 — the
handler's output is only that rendered message. -/
theorem main_top_level (interrupted : Bool) (w : World) (a : Args) :
    ((mainRun interrupted w a).1 = 0 ↔ (interrupted = false ∧ runBody w a = .ok ()))
  ∧ (interrupted = true →
      mainRun interrupted w a = (1, some "\n❌ Interrupted by user"))
  ∧ (∀ e, interrupted = false → runBody w a = .error e →
      mainRun interrupted w a = (1, some ("❌ Error: " ++ e.message))) := by
  rcases interrupted with _ | _
  · rcases hb : runBody w a with e | u
    · simp [mainRun, hb]
    · cases u
      simp [mainRun, hb]
  · simp [mainRun]

/-- A concrete invocation in which the tree path does not exist. -/
def cxWorld : World where
  treeExists := false
  metaExists := true
  treeRead := .ok "(A:0.1);"
  metaRead := .ok "sample\tcountry"
  treeParse := .error "unexpected end of string"
  csvParse := noParse
  customJson := .error "No such file or directory"
  palette := []
  plotResult := .error "renderer"
  fs := ⟨[], []⟩

/-- Default-flag arguments for the concrete invocation. -/
def cxArgs : Args where
  tree := "t.nwk"
  metadata := "m.tsv"
  output := "phylo_tree.html"
  color_column := "taxon"
  hover_columns := ["taxon", "country"]
  custom_colors := none
  show_plot := false

/-- Witness for C8: the missing tree file's `FileNotFoundError` reaches the
top-level handler, which prints the single rendered line and exits 1. -/
theorem main_top_level_witness :
    mainRun false cxWorld cxArgs
      = (1, some ("❌ Error: " ++ (PyExc.fileNotFound "Tree file not found: t.nwk").message)) :=
  (main_top_level false cxWorld cxArgs).2.2
    (.fileNotFound "Tree file not found: t.nwk") rfl rfl

/-- Claim C9: whenever `load_data` succeeds, the metadata table it hands on
is exactly the table the delimiter sniffer produced — the color-column
check and the hover reconciliation change no row and no column — and only
the separate hover list is replaced by its filtered version. -/
theorem metadata_frame (tree_file metadata_file : String)
    (treeRes : Except String BTree) (parse : String → Option PTable)
    (color_column : String) (hover : List String) (r : LoadResult)
    (hr : load_data tree_file metadata_file treeRes parse color_column hover = .ok r) :
    trySeps parse sniffSeps = some r.metadata
  ∧ r.hover_columns = hover.filter (fun col => r.metadata.cols.contains col) := by
  rcases treeRes with e | t
  · exact absurd hr (by simp [load_data])
  · unfold load_data at hr
    dsimp only at hr
    rcases hml : loadMetadata parse with e | tbl
    · rw [hml] at hr
      cases hr
    · rw [hml] at hr
      dsimp only at hr
      by_cases hc : tbl.cols.contains color_column = true
      · rw [if_pos hc] at hr
        by_cases hm : (hover.filter (fun col => !(tbl.cols.contains col))).isEmpty = true
        · rw [if_pos hm] at hr
          cases hr
          have hall : hover.filter (fun col => tbl.cols.contains col) = hover :=
            filter_keep_of_no_missing _ _ (by simpa [List.isEmpty_iff] using hm)
          exact ⟨loadMetadata_ok_inv hml, hall.symm⟩
        · rw [if_neg hm] at hr
          cases hr
          exact ⟨loadMetadata_ok_inv hml, rfl⟩
      · rw [if_neg hc] at hr
        cases hr

/-- Witness for C9: a concrete successful load returns the sniffed
`taxon`/`country` table untouched alongside the filtered hover list. -/
theorem metadata_frame_witness :
    trySeps tabParse sniffSeps
      = some (LoadResult.metadata ⟨⟨["A"]⟩, ⟨["taxon", "country"], [["A", "KE"]]⟩,
          ["taxon"], [hoverWarning ["alt"]]⟩)
  ∧ (LoadResult.hover_columns ⟨⟨["A"]⟩, ⟨["taxon", "country"], [["A", "KE"]]⟩,
          ["taxon"], [hoverWarning ["alt"]]⟩)
      = ["taxon", "alt"].filter (fun col =>
          (LoadResult.metadata ⟨⟨["A"]⟩, ⟨["taxon", "country"], [["A", "KE"]]⟩,
            ["taxon"], [hoverWarning ["alt"]]⟩).cols.contains col) :=
  metadata_frame "t.nwk" "m.tsv" (.ok ⟨["A"]⟩) tabParse "taxon" ["taxon", "alt"]
    ⟨⟨["A"]⟩, ⟨["taxon", "country"], [["A", "KE"]]⟩, ["taxon"], [hoverWarning ["alt"]]⟩ rfl

end BokehPhy
